import Mathlib

/-!
Verification development for the news-analysis core of the IABonner
repository (`src/news_analyzer.py`).

The Python module is shallowly embedded below.  Strings are modelled by
Lean `String` (a list of unicode characters); the Python string
primitives used by the module (`lower`, `upper`, `strip`, `split`,
`split('\n')`, `startswith`, `in`-substring, `replace`, slicing) are
re-implemented over `List Char` so that every definition is executable
and kernel-reducible.  Python's `lower`/`upper` are modelled on the
ASCII and Latin-1 letter ranges, which cover every alphabet character
appearing in the module's keyword lists and section markers.

Network effects (the OpenAI-compatible chat call, the Hugging Face POST
and the Ollama health probe) are modelled as oracle fields of the
provider record returning `Except Unit _`: `Except.error ()` stands for
"the call raised".  Everything else is translated directly from the
source.
-/

/-! ## Python string primitives -/

/-- Python `str.lower` on the ASCII (`A`-`Z`) and Latin-1 (`À`-`Þ`,
excluding `×`) uppercase ranges; other characters are unchanged. -/
def pyLowerChar (c : Char) : Char :=
  let n := c.toNat
  if 65 ≤ n ∧ n ≤ 90 then Char.ofNat (n + 32)
  else if 192 ≤ n ∧ n ≤ 222 ∧ n ≠ 215 then Char.ofNat (n + 32)
  else c

/-- Python `str.upper` on the ASCII (`a`-`z`) and Latin-1 (`à`-`þ`,
excluding `÷`) lowercase ranges; other characters are unchanged. -/
def pyUpperChar (c : Char) : Char :=
  let n := c.toNat
  if 97 ≤ n ∧ n ≤ 122 then Char.ofNat (n - 32)
  else if 224 ≤ n ∧ n ≤ 254 ∧ n ≠ 247 then Char.ofNat (n - 32)
  else c

/-- Python `text.lower()`. -/
def pyLower (s : String) : String := String.mk (s.data.map pyLowerChar)

/-- Python `text.upper()`. -/
def pyUpper (s : String) : String := String.mk (s.data.map pyUpperChar)

/-- Drop leading whitespace characters from a character list. -/
def dropLeadingWS : List Char → List Char
  | [] => []
  | c :: cs => if c.isWhitespace then dropLeadingWS cs else c :: cs

/-- Python `line.strip()`: remove leading and trailing whitespace. -/
def pyStrip (s : String) : String :=
  String.mk ((dropLeadingWS ((dropLeadingWS s.data).reverse)).reverse)

/-- `listStarts hay pat` is true iff `pat` is an initial segment of
`hay` (Python `hay.startswith(pat)` on character lists). -/
def listStarts : List Char → List Char → Bool
  | _, [] => true
  | [], _ :: _ => false
  | a :: as, b :: bs => a == b && listStarts as bs

/-- Python `s.startswith(pat)`. -/
def pyStarts (s pat : String) : Bool := listStarts s.data pat.data

/-- `listHasSub pat hay` is true iff `pat` occurs contiguously in `hay`
(Python `pat in hay` on character lists). -/
def listHasSub (pat : List Char) : List Char → Bool
  | [] => pat.isEmpty
  | c :: cs => listStarts (c :: cs) pat || listHasSub pat cs

/-- Python substring containment `pat in hay`. -/
def strHasSub (hay pat : String) : Bool := listHasSub pat.data hay.data

/-- Split a character list at every newline character, keeping empty
segments, exactly like Python `text.split('\n')`. -/
def splitOnNl : List Char → List (List Char)
  | [] => [[]]
  | c :: cs =>
    if c.toNat = 10 then [] :: splitOnNl cs
    else
      match splitOnNl cs with
      | [] => [[c]]
      | l :: ls => (c :: l) :: ls

/-- Python `text.split('\n')`. -/
def pySplitLinesNl (s : String) : List String := (splitOnNl s.data).map String.mk

/-- Worker for `pySplitWS`: `cur` is the (reversed) word being read. -/
def wsSplitGo : List Char → List Char → List (List Char)
  | cur, [] => if cur.isEmpty then [] else [cur.reverse]
  | cur, c :: cs =>
    if c.isWhitespace then
      if cur.isEmpty then wsSplitGo [] cs else cur.reverse :: wsSplitGo [] cs
    else wsSplitGo (c :: cur) cs

/-- Python `text.split()` with no argument: split on whitespace runs,
discarding empty tokens. -/
def pySplitWS (s : String) : List String := (wsSplitGo [] s.data).map String.mk

/-- Python `'\n'.join(items)`. -/
def pyJoinNl : List String → String
  | [] => ""
  | [s] => s
  | s :: rest => s ++ "\n" ++ pyJoinNl rest

/-- Python `s[:n]`: the first `n` characters of `s`. -/
def pyTakeChars (s : String) (n : Nat) : String := String.mk (s.data.take n)

/-- Python `s.replace(pat, rep)` (all non-overlapping occurrences,
scanning left to right), on character lists.  A structurally empty
pattern is left unreplaced (the module only ever replaces non-empty
labels). -/
def listReplaceAll (pat rep : List Char) : List Char → List Char
  | [] => []
  | c :: cs =>
    if pat.isEmpty then c :: cs
    else if listStarts (c :: cs) pat then
      rep ++ listReplaceAll pat rep (cs.drop (pat.length - 1))
    else c :: listReplaceAll pat rep cs
termination_by l => l.length
decreasing_by
  · simp only [List.length_cons]
    have h := List.length_drop (pat.length - 1) cs
    omega
  · simp

/-- Python `s.replace(pat, rep)`. -/
def pyReplace (s pat rep : String) : String :=
  String.mk (listReplaceAll pat.data rep.data s.data)

/-! ## Data model

`Article` models the Python news-item dict: each field is `Option
String`, `none` standing for an absent key so that the source's
`news_item.get(key, default)` chains translate to `Option.getD`. -/

structure Article where
  title : Option String := none
  content : Option String := none
  summary : Option String := none
  source : Option String := none
  url : Option String := none
  author : Option String := none
  published_date : Option String := none
deriving Repr, DecidableEq

/-- The analysis record produced by the module (the union of the keys
set by the OpenAI-compatible path, the Hugging Face path and the local
path; keys a path does not set are `none`). -/
structure AnalysisResult where
  resumo_executivo : String
  pontos_chave : String
  nivel_relevancia : String
  titulo_traduzido : String
  resumo_traduzido : String
  provedor_usado : Option String := none
  metodo_analise : Option String := none
deriving Repr, DecidableEq

/-! ## Response parser (`_parse_analysis_response`, lines 362-404) -/

/-- The three section cursors of the parser state machine. -/
inductive Sec where
  | resumo
  | pontos
  | nivel
deriving Repr, DecidableEq

/-- The parser's three accumulators (`sections` dict in the source). -/
structure Sections where
  resumo_executivo : String
  pontos_chave : String
  nivel_relevancia : String
deriving Repr, DecidableEq

/-- The empty `sections` dict the parser starts from. -/
def emptySections : Sections := { resumo_executivo := "", pontos_chave := "", nivel_relevancia := "" }

/-- Append `t` to the accumulator of section `k`. -/
def appendSec (s : Sections) : Sec → String → Sections
  | Sec.resumo, t => { s with resumo_executivo := s.resumo_executivo ++ t }
  | Sec.pontos, t => { s with pontos_chave := s.pontos_chave ++ t }
  | Sec.nivel, t => { s with nivel_relevancia := s.nivel_relevancia ++ t }

/-- Read the accumulator of section `k`. -/
def getSec (s : Sections) : Sec → String
  | Sec.resumo => s.resumo_executivo
  | Sec.pontos => s.pontos_chave
  | Sec.nivel => s.nivel_relevancia

/-- Detection of the executive-summary heading (source line 380):
`'## RESUMO EXECUTIVO' in line.upper() or '**RESUMO EXECUTIVO**' in
line.upper() or 'RESUMO EXECUTIVO' in line.upper()`. -/
def detect_resumo (up : String) : Bool :=
  strHasSub up "## RESUMO EXECUTIVO" || strHasSub up "**RESUMO EXECUTIVO**" ||
    strHasSub up "RESUMO EXECUTIVO"

/-- Detection of the key-points heading (source line 385). -/
def detect_pontos (up : String) : Bool :=
  strHasSub up "## PONTOS-CHAVE" || strHasSub up "## PONTOS CHAVE" ||
    strHasSub up "**PONTOS-CHAVE**" || strHasSub up "**PONTOS CHAVE**" ||
    strHasSub up "PONTOS-CHAVE" || strHasSub up "PONTOS CHAVE"

/-- Detection of the relevance heading (source line 390). -/
def detect_nivel (up : String) : Bool :=
  strHasSub up "## NÍVEL DE RELEVÂNCIA" || strHasSub up "## NIVEL DE RELEVANCIA" ||
    strHasSub up "**NÍVEL DE RELEVÂNCIA**" || strHasSub up "**NIVEL DE RELEVANCIA**" ||
    strHasSub up "NÍVEL DE RELEVÂNCIA" || strHasSub up "NIVEL DE RELEVANCIA"

/-- The five marker phrases of the defensive de-duplication check
(source line 397). -/
def marker_list : List String :=
  ["RESUMO EXECUTIVO", "PONTOS-CHAVE", "PONTOS CHAVE", "NÍVEL DE RELEVÂNCIA",
   "NIVEL DE RELEVANCIA"]

/-- One iteration of the parser's line loop (source lines 376-398).
The state is the current cursor (`current_section`) together with the
accumulators. -/
def parse_step (st : Option Sec × Sections) (rawLine : String) : Option Sec × Sections :=
  let line := pyStrip rawLine
  let up := pyUpper line
  if detect_resumo up then (some Sec.resumo, st.2)
  else if detect_pontos up then (some Sec.pontos, st.2)
  else if detect_nivel up then (some Sec.nivel, st.2)
  else
    match st.1 with
    | none => st
    | some k =>
      if line != "" && !pyStarts line "##" && !pyStarts line "**" then
        if !(marker_list.any fun m => strHasSub up m) then
          (some k, appendSec st.2 k (line ++ "\n"))
        else st
      else st

/-- `_parse_analysis_response`: scan the lines, then strip each
accumulator (source lines 362-404). -/
def parse_analysis_response (analysis_text : String) : Sections :=
  let final := (pySplitLinesNl analysis_text).foldl parse_step (none, emptySections)
  { resumo_executivo := pyStrip final.2.resumo_executivo,
    pontos_chave := pyStrip final.2.pontos_chave,
    nivel_relevancia := pyStrip final.2.nivel_relevancia }

/-! ## Local analysis (`_local_analysis`, lines 406-475) -/

/-- `high_relevance_keywords` (source line 415). -/
def high_relevance_keywords : List String :=
  ["openai", "chatgpt", "claude", "gemini", "breakthrough", "revolutionary", "billion",
   "funding", "ipo", "acquisition"]

/-- `medium_relevance_keywords` (source line 416). -/
def medium_relevance_keywords : List String :=
  ["ai", "artificial intelligence", "machine learning", "deep learning", "neural",
   "algorithm", "automation", "robot"]

/-- `low_relevance_keywords` (source line 417). -/
def low_relevance_keywords : List String :=
  ["update", "minor", "patch", "bug", "fix"]

/-- `text_lower = (title + ' ' + content).lower()` with the same
key-defaulting as the source (`title` defaults to `'N/A'`, `content` to
the summary and then to `''`, lines 409-419). -/
def local_text_lower (news_item : Article) : String :=
  pyLower (news_item.title.getD "N/A" ++ " " ++
    news_item.content.getD (news_item.summary.getD ""))

/-- `sum(1 for keyword in keywords if keyword in text_lower)`:
the number of keywords of the tier occurring in the text. -/
def keyword_count (keywords : List String) (text_lower : String) : Nat :=
  keywords.countP fun keyword => strHasSub text_lower keyword

/-- The relevance classification of `_local_analysis`
(source lines 426-433), as a function of the two counts it reads. -/
def relevance_string (high_count medium_count : Nat) : String :=
  if 2 ≤ high_count then
    "Alto - Contém múltiplas palavras-chave de alta relevância"
  else if 1 ≤ high_count ∨ 3 ≤ medium_count then
    "Médio - Relevância moderada para o setor de IA"
  else if 1 ≤ medium_count then
    "Médio - Relacionado à inteligência artificial"
  else
    "Baixo - Relevância limitada para IA"

/-- The six topical triggers of the key-point generator, in source
order, each with its bullet (source lines 436-448). -/
def key_point_triggers : List ((String → Bool) × String) :=
  [(fun tl => strHasSub tl "openai" || strHasSub tl "chatgpt",
    "• Desenvolvimento em OpenAI/ChatGPT"),
   (fun tl => strHasSub tl "google" || strHasSub tl "gemini",
    "• Inovação do Google em IA"),
   (fun tl => strHasSub tl "microsoft",
    "• Iniciativa da Microsoft"),
   (fun tl => strHasSub tl "funding" || strHasSub tl "investment",
    "• Movimentação de investimentos"),
   (fun tl => strHasSub tl "enterprise" || strHasSub tl "business",
    "• Aplicação empresarial"),
   (fun tl => strHasSub tl "developer" || strHasSub tl "api",
    "• Ferramentas para desenvolvedores")]

/-- The trigger keywords the key-point generator tests for, as plain
substrings of the lowered text. -/
def trigger_keywords : List String :=
  ["openai", "chatgpt", "google", "gemini", "microsoft", "funding", "investment",
   "enterprise", "business", "developer", "api"]

/-- `pontos_chave` accumulation (source lines 436-455): one bullet per
firing trigger, in source order; three generic bullets if none fires. -/
def pontos_chave_list (text_lower : String) : List String :=
  let pts := (key_point_triggers.filter fun t => t.1 text_lower).map fun t => t.2
  if pts.isEmpty then
    ["• Notícia relacionada à inteligência artificial",
     "• Potencial impacto no setor de tecnologia",
     "• Relevante para acompanhamento do mercado"]
  else pts

/-- The executive-summary sentence of `_local_analysis`
(source lines 458-466). -/
def resumo_executivo_local (title : String) (high_count medium_count : Nat) : String :=
  let base := "Análise local da notícia: " ++ title ++ ". "
  let mid :=
    if 0 < high_count then
      "Esta notícia apresenta desenvolvimentos significativos em IA com potencial impacto no mercado. "
    else if 0 < medium_count then
      "Esta notícia aborda temas relevantes de inteligência artificial. "
    else
      "Esta notícia tem conexão com tecnologia e pode ser de interesse. "
  base ++ mid ++
    "Recomenda-se acompanhamento para avaliar oportunidades de aplicação em negócios e desenvolvimento."

/-- `_local_analysis` (source lines 406-475).  The source also computes
`low_count` over `low_relevance_keywords`; it is never read afterwards,
which is exactly what claim C10 is about. -/
def local_analysis (news_item : Article) : AnalysisResult :=
  let title := news_item.title.getD "N/A"
  let text_lower := local_text_lower news_item
  let high_count := keyword_count high_relevance_keywords text_lower
  let medium_count := keyword_count medium_relevance_keywords text_lower
  { resumo_executivo := resumo_executivo_local title high_count medium_count,
    pontos_chave := pyJoinNl (pontos_chave_list text_lower),
    nivel_relevancia := relevance_string high_count medium_count,
    titulo_traduzido := title,
    resumo_traduzido := news_item.summary.getD "Resumo não disponível",
    provedor_usado := none,
    metodo_analise := some "local" }

/-! ## Prompt builder (`_create_analysis_prompt`, lines 333-360) -/

/-- The template text before the embedded title. -/
def prompt_part1 : String :=
  "\nAnalise a seguinte notícia sobre inteligência artificial e tecnologia:\n\n**Título:** "

/-- The template text between title and content. -/
def prompt_part2 : String := "\n\n**Conteúdo:** "

/-- The template text between the content and the first heading. -/
def prompt_tail_a : String :=
  "\n\nPor favor, forneça uma análise estruturada seguindo EXATAMENTE este formato (mantenha os cabeçalhos):\n\n"

/-- The template text between the first and second headings. -/
def prompt_tail_b : String :=
  "\n[Resumo da notícia, em português brasileiro]\n\n"

/-- The template text between the second and third headings. -/
def prompt_tail_c : String :=
  "\n[3-5 pontos principais desta notícia em formato de lista]\n\n"

/-- The template text after the third heading. -/
def prompt_tail_d : String :=
  "\n[Alto/Médio/Baixo] - [Justificativa em uma frase]\n\nIMPORTANTE: Responda sempre em português brasileiro e mantenha exatamente os cabeçalhos mostrados acima.\n"

/-- `_create_analysis_prompt` (source lines 333-360): a pure function
of the article; `title` defaults to `'N/A'` when the key is absent,
`content` to the summary and then to `'N/A'`. -/
def create_analysis_prompt (news_item : Article) : String :=
  let title := news_item.title.getD "N/A"
  let content := news_item.content.getD (news_item.summary.getD "N/A")
  prompt_part1 ++ title ++ prompt_part2 ++ content ++
    prompt_tail_a ++ "## RESUMO EXECUTIVO" ++ prompt_tail_b ++
    "## PONTOS-CHAVE" ++ prompt_tail_c ++ "## NÍVEL DE RELEVÂNCIA" ++ prompt_tail_d

/-! ## Language heuristic and translation
(`_is_portuguese` lines 326-331, `_translate_news_item_simple`
lines 265-324) -/

/-- `portuguese_words` (source line 328). -/
def portuguese_words : List String :=
  ["de", "da", "do", "para", "com", "em", "por", "uma", "um", "que", "não", "são",
   "como", "mais", "sobre", "pela", "pelo"]

/-- `_is_portuguese` (source lines 326-331): at least two function-word
matches among the lowercased whitespace-split tokens, or fewer than
five tokens. -/
def is_portuguese (text : String) : Bool :=
  let words := pySplitWS (pyLower text)
  let portuguese_count := words.countP fun word => portuguese_words.contains word
  decide (2 ≤ portuguese_count) || decide (words.length < 5)

/-- The fixed translation instruction prompt (source lines 281-290). -/
def translation_prompt (title summary : String) : String :=
  "\nTraduza para português brasileiro:\n\nTÍTULO: " ++ title ++ "\nRESUMO: " ++ summary ++
    "\n\nResponda apenas:\nTÍTULO_TRADUZIDO: [título em português]\nRESUMO_TRADUZIDO: [resumo em português]\n"

/-- The system message of the translation call (source line 295). -/
def translator_system_message : String :=
  "Você é um tradutor. Traduza para português brasileiro."

/-- One iteration of the translation-output line scan (source lines
309-313): a line starting with `TÍTULO_TRADUZIDO:` rewrites the title
(label removed everywhere, then stripped), an other line starting with
`RESUMO_TRADUZIDO:` rewrites the summary, and every other line is
ignored. -/
def translation_scan_step (acc : String × String) (line : String) : String × String :=
  if pyStarts line "TÍTULO_TRADUZIDO:" then
    (pyStrip (pyReplace line "TÍTULO_TRADUZIDO:" ""), acc.2)
  else if pyStarts line "RESUMO_TRADUZIDO:" then
    (acc.1, pyStrip (pyReplace line "RESUMO_TRADUZIDO:" ""))
  else acc

/-- Parse of the translation output (source lines 304-313), starting
from the original title and summary so that a missing label keeps the
original value. -/
def translation_parse (title summary translation_text : String) : String × String :=
  (pySplitLinesNl translation_text).foldl translation_scan_step (title, summary)

/-! ## Providers and network oracles -/

/-- The two provider call shapes the orchestrator distinguishes
(`provider['type']` in the source). -/
inductive PType where
  | openai_compatible
  | huggingface
deriving Repr, DecidableEq

/-- The body the Ollama health probe extracts from
`GET {base}/api/tags` (source lines 76-78): the HTTP status and the
`models` array of the JSON body (`[]` when the key is absent).  A
transport failure, timeout or JSON error is the `Except.error` case of
the oracle. -/
structure HealthResp where
  status : Nat
  models : List String
deriving Repr, DecidableEq

/-- The values the Hugging Face path extracts from its POST response
(source lines 249-252): the HTTP status, whether the JSON body is a
non-empty list, and the `generated_text` of its first element (`''`
when absent). -/
structure HFResp where
  status : Nat
  nonEmptyList : Bool
  generated_text : String
deriving Repr, DecidableEq

/-- A usable provider (an element of `self.available_providers`).
`chat` is the oracle for `client.chat.completions.create` (arguments:
system message and user message; the model name, `max_tokens` and
`temperature` of the source do not influence the control flow modelled
here); `hfPost` is the oracle for the Hugging Face `requests.post`
(argument: the prompt).  `Except.error ()` means the call raised. -/
structure Provider where
  name : String
  ptype : PType
  chat : String → String → Except Unit String
  hfPost : String → Except Unit HFResp

/-- The system message of the analysis call (source line 208). -/
def analyst_system_message : String :=
  "Você é um analista especializado em inteligência artificial e tecnologia. Sua tarefa é analisar notícias sobre IA e fornecer insights específicos para desenvolvedores de software e empresas do ramo imobiliário/shopping centers. Responda sempre em português brasileiro."

/-- `_translate_news_item_simple` (source lines 265-324), instrumented
with the number of chat (generation) calls issued.  The source returns
the article unchanged when both title and summary already look
Portuguese, when there is no available provider, or when the first
provider is not OpenAI-compatible; a raising chat call is absorbed by
the `except` clause (article unchanged, one call issued). -/
def translate_news_item_simple_t (available_providers : List Provider)
    (news_item : Article) : Article × Nat :=
  let title := news_item.title.getD ""
  let summary := news_item.summary.getD (news_item.content.getD "")
  if is_portuguese title && is_portuguese summary then (news_item, 0)
  else
    match available_providers with
    | [] => (news_item, 0)
    | provider :: _ =>
      match provider.ptype with
      | PType.huggingface => (news_item, 0)
      | PType.openai_compatible =>
        match provider.chat translator_system_message (translation_prompt title summary) with
        | Except.error _ => (news_item, 1)
        | Except.ok translation_text =>
          let parsed := translation_parse title summary translation_text
          ({ news_item with title := some parsed.1, summary := some parsed.2 }, 1)

/-- `_translate_news_item_simple` without the instrumentation. -/
def translate_news_item_simple (available_providers : List Provider)
    (news_item : Article) : Article :=
  (translate_news_item_simple_t available_providers news_item).1

/-- `_analyze_with_openai_compatible` (source lines 187-227): translate
unless the provider is Ollama, build the prompt, issue the chat call,
parse the three sections and attach the translated title/summary and
the provider marker. -/
def analyze_with_openai_compatible (available_providers : List Provider)
    (provider : Provider) (news_item : Article) : Except Unit (Option AnalysisResult) :=
  let translated_item :=
    if provider.name != "ollama" then
      translate_news_item_simple available_providers news_item
    else news_item
  let prompt := create_analysis_prompt translated_item
  match provider.chat analyst_system_message prompt with
  | Except.error e => Except.error e
  | Except.ok analysis_text =>
    let parsed := parse_analysis_response analysis_text
    Except.ok (some
      { resumo_executivo := parsed.resumo_executivo,
        pontos_chave := parsed.pontos_chave,
        nivel_relevancia := parsed.nivel_relevancia,
        titulo_traduzido := translated_item.title.getD (news_item.title.getD ""),
        resumo_traduzido := translated_item.summary.getD (news_item.summary.getD ""),
        provedor_usado := some provider.name,
        metodo_analise := none })

/-- `_analyze_with_huggingface` (source lines 229-263): one POST; on
status 200 with a non-empty list body, a fixed-shape record built from
the generated text (note: no provider marker is attached on this path);
otherwise `None`. -/
def analyze_with_huggingface (provider : Provider) (news_item : Article) :
    Except Unit (Option AnalysisResult) :=
  let title := news_item.title.getD ""
  let content := pyTakeChars (news_item.content.getD (news_item.summary.getD "")) 500
  match provider.hfPost ("Analise esta notícia de IA: " ++ title ++ ". " ++ content) with
  | Except.error e => Except.error e
  | Except.ok resp =>
    if resp.status == 200 && resp.nonEmptyList then
      let analysis_text := resp.generated_text
      Except.ok (some
        { resumo_executivo :=
            if 200 < analysis_text.length then pyTakeChars analysis_text 200 ++ "..."
            else analysis_text,
          pontos_chave :=
            "• Análise via Hugging Face\n• Conteúdo processado automaticamente\n• Relevante para IA e tecnologia",
          nivel_relevancia := "Médio - Análise automática via Hugging Face",
          titulo_traduzido := title,
          resumo_traduzido := news_item.summary.getD "Resumo não disponível",
          provedor_usado := none,
          metodo_analise := none })
    else Except.ok none

/-- Dispatch on `provider['type']` (source lines 164-167). -/
def run_provider (available_providers : List Provider) (provider : Provider)
    (news_item : Article) : Except Unit (Option AnalysisResult) :=
  match provider.ptype with
  | PType.huggingface => analyze_with_huggingface provider news_item
  | PType.openai_compatible =>
    analyze_with_openai_compatible available_providers provider news_item

/-- `True` exactly when a provider attempt produced a usable (truthy)
result: neither an exception nor a `None`/falsy value. -/
def ok_some (r : Except Unit (Option AnalysisResult)) : Bool :=
  match r with
  | Except.ok (some _) => true
  | _ => false

/-- The provider loop of `analyze_news` (source lines 160-185): try
each provider in order; a raising call (both the rate-limit and the
generic branch of the `except` clause re-enter the loop) or a falsy
result advances to the next provider; the first truthy result is
returned; exhaustion falls back to `_local_analysis`.  The second
component records the names of the providers invoked, in order. -/
def analyze_news_go (available_providers : List Provider) (news_item : Article) :
    List Provider → AnalysisResult × List String
  | [] => (local_analysis news_item, [])
  | provider :: rest =>
    match run_provider available_providers provider news_item with
    | Except.ok (some result) => (result, [provider.name])
    | _ =>
      let r := analyze_news_go available_providers news_item rest
      (r.1, provider.name :: r.2)

/-- `analyze_news` (source lines 150-185), instrumented with the list
of providers invoked.  When analysis is disabled the source goes
straight to `_local_analysis`. -/
def analyze_news_t (available_providers : List Provider) (analysis_enabled : Bool)
    (news_item : Article) : AnalysisResult × List String :=
  if !analysis_enabled then (local_analysis news_item, [])
  else analyze_news_go available_providers news_item available_providers

/-- `analyze_news` without the instrumentation.  The Python signature
is `Optional[Dict]`, but every path returns a dict; totality is
expressed here by the non-optional result type. -/
def analyze_news (available_providers : List Provider) (analysis_enabled : Bool)
    (news_item : Article) : AnalysisResult :=
  (analyze_news_t available_providers analysis_enabled news_item).1

/-! ## Health check and provider setup
(`_check_ollama_availability` lines 69-88, `_setup_providers`
lines 90-148) -/

/-- `_check_ollama_availability` (source lines 69-88): true iff the
probe neither raised nor timed out, returned HTTP 200, and reported a
non-empty `models` array. -/
def check_ollama_availability (probe : Except Unit HealthResp) : Bool :=
  match probe with
  | Except.error _ => false
  | Except.ok response =>
    if response.status == 200 then !response.models.isEmpty
    else false

/-- One entry of `self.providers` as `_setup_providers` reads it: the
name, the configured `api_key` (`none` models an unset environment
variable) and the priority. -/
structure RegEntry where
  name : String
  api_key : Option String
  priority : Nat
deriving Repr, DecidableEq

/-- The provider registry (source lines 24-60), in declaration order;
the hosted keys come from the environment. -/
def provider_registry (keys : String → Option String) : List RegEntry :=
  [{ name := "ollama", api_key := some "local", priority := 1 },
   { name := "openrouter", api_key := keys "OPENROUTER_API_KEY", priority := 2 },
   { name := "groq", api_key := keys "GROQ_API_KEY", priority := 3 },
   { name := "together", api_key := keys "TOGETHER_API_KEY", priority := 4 },
   { name := "huggingface", api_key := keys "HUGGINGFACE_API_KEY", priority := 5 }]

/-- Stable insertion by ascending priority (Python `sorted` with a
priority key, source line 93). -/
def insertByPriority (e : RegEntry) : List RegEntry → List RegEntry
  | [] => [e]
  | x :: xs =>
    if e.priority < x.priority then e :: x :: xs
    else x :: insertByPriority e xs

/-- Sort the registry by ascending priority. -/
def sortByPriority (l : List RegEntry) : List RegEntry :=
  l.foldr insertByPriority []

/-- One iteration of the `_setup_providers` loop (source lines
95-140): Ollama is appended iff its health check passed and the OpenAI
client class is importable (constructing `OpenAI(None)` raises and is
caught); a hosted backend is appended iff its key is set, non-empty
and not the placeholder sentinel — directly for the Hugging Face
backend, and only when the OpenAI client class is importable for the
others. -/
def setup_step (openai_lib : Bool) (probe : Except Unit HealthResp)
    (acc : List String) (e : RegEntry) : List String :=
  if e.name == "ollama" then
    if check_ollama_availability probe then
      if openai_lib then acc ++ [e.name] else acc
    else acc
  else
    match e.api_key with
    | none => acc
    | some k =>
      if k != "" && k != "your_api_key_here" then
        if e.name == "huggingface" then acc ++ [e.name]
        else if openai_lib then acc ++ [e.name]
        else acc
      else acc

/-- `_setup_providers` (source lines 90-148), at the granularity of
provider names: the ordered list of usable-provider names. -/
def setup_providers (openai_lib : Bool) (probe : Except Unit HealthResp)
    (keys : String → Option String) : List String :=
  (sortByPriority (provider_registry keys)).foldl (setup_step openai_lib probe) []

/-! ## Auxiliary definitions for the statements -/

/-- The heading detector of section `k`, packaging the three detectors
for uniform statements about the parser state machine. -/
def detectSec : Sec → String → Bool
  | Sec.resumo => detect_resumo
  | Sec.pontos => detect_pontos
  | Sec.nivel => detect_nivel

/-- The translation-skip condition as the SPEC words it (function-word
count over the combined title+summary, ≥2 matches or fewer than 5
tokens).  Stated only to compare the spec's wording with the
implementation, which tests title and summary separately. -/
def combined_portuguese_spec (news_item : Article) : Bool :=
  let toks := pySplitWS (pyLower (news_item.title.getD "" ++ " " ++
    news_item.summary.getD (news_item.content.getD "")))
  decide (2 ≤ toks.countP fun w => portuguese_words.contains w) || decide (toks.length < 5)

/-- A chat oracle that always raises. -/
def chatFail : String → String → Except Unit String := fun _ _ => Except.error ()

/-- A Hugging Face POST oracle that always raises. -/
def hfFail : String → Except Unit HFResp := fun _ => Except.error ()

/-- Failing OpenAI-compatible provider `A`. -/
def provA : Provider :=
  { name := "A", ptype := PType.openai_compatible, chat := chatFail, hfPost := hfFail }

/-- Failing OpenAI-compatible provider `B`. -/
def provB : Provider :=
  { name := "B", ptype := PType.openai_compatible, chat := chatFail, hfPost := hfFail }

/-- Succeeding OpenAI-compatible provider `C`. -/
def provCok : Provider :=
  { name := "C", ptype := PType.openai_compatible,
    chat := fun _ _ => Except.ok "resposta qualquer", hfPost := hfFail }

/-- Succeeding Hugging Face provider. -/
def provHFok : Provider :=
  { name := "huggingface", ptype := PType.huggingface, chat := chatFail,
    hfPost := fun _ => Except.ok (HFResp.mk 200 true "análise gerada") }

/-- OpenAI-compatible provider whose chat call returns text with no
translation labels. -/
def provOk : Provider :=
  { name := "openrouter", ptype := PType.openai_compatible,
    chat := fun _ _ => Except.ok "OK", hfPost := hfFail }

/-- Provider chain `[A, B, C]` with `A`, `B` failing and `C`
succeeding. -/
def psABC : List Provider := [provA, provB, provCok]

/-- Provider chain `[A, B, huggingface]` with `A`, `B` failing and the
Hugging Face backend succeeding. -/
def psABHF : List Provider := [provA, provB, provHFok]

/-- An article whose title and summary both pass the Portuguese
heuristic (the title has fewer than five tokens). -/
def art_pt : Article := { title := some "a de da" }

/-- An article that fails the Portuguese heuristic on both fields. -/
def art_en : Article :=
  { title := some "english title words here now",
    summary := some "more english words in here" }

/-- Title passes the function-word test (`de`, `da`), summary fails it:
the combined text has ≥2 matches but the implementation still
translates. -/
def art_c6 : Article :=
  { title := some "de da x y z", summary := some "alpha beta gamma delta epsilon" }

/-- Content key present but empty, summary present and non-empty. -/
def art_c8 : Article := { title := some "T", content := some "", summary := some "zzqq" }

/-- Low-tier count 1, all other keyword statistics zero. -/
def art_hello_update : Article := { title := some "hello", content := some "update" }

/-- Like `art_hello_update` with low-tier count 2. -/
def art_hello_update_minor : Article :=
  { title := some "hello", content := some "update minor" }

/-- A different title, all keyword statistics zero. -/
def art_world_empty : Article := { title := some "world", content := some "" }

/-! ## Theorems -/

theorem getSec_appendSec_ne (s : Sections) (j k : Sec) (t : String) (h : j ≠ k) :
    getSec (appendSec s j t) k = getSec s k := by
  cases j <;> cases k <;> simp_all [appendSec, getSec]


theorem parse_inner_fst (j : Sec) (s2 : Sections) (line up : String) :
    (if (line != "" && !pyStarts line "##" && !pyStarts line "**") = true then
       if (!(marker_list.any fun m => strHasSub up m)) = true then
         (some j, appendSec s2 j (line ++ "\n"))
       else (some j, s2)
     else (some j, s2)).1 = some j := by
  split
  · split
    · rfl
    · rfl
  · rfl

theorem parse_inner_snd (j k : Sec) (s2 : Sections) (line up : String) (hj : j ≠ k) :
    getSec
      (if (line != "" && !pyStarts line "##" && !pyStarts line "**") = true then
         if (!(marker_list.any fun m => strHasSub up m)) = true then
           (some j, appendSec s2 j (line ++ "\n"))
         else (some j, s2)
       else (some j, s2)).2 k = getSec s2 k := by
  split
  · split
    · exact getSec_appendSec_ne _ _ _ _ hj
    · rfl
  · rfl

theorem parse_step_preserve (k : Sec) (st : Option Sec × Sections) (l : String)
    (hd : detectSec k (pyUpper (pyStrip l)) = false) (hst : st.1 ≠ some k) :
    (parse_step st l).1 ≠ some k ∧ getSec (parse_step st l).2 k = getSec st.2 k := by
  obtain ⟨s1, s2⟩ := st
  simp only [parse_step]
  by_cases h1 : detect_resumo (pyUpper (pyStrip l)) = true
  · rw [if_pos h1]
    refine ⟨fun hc => ?_, rfl⟩
    have hk : k = Sec.resumo := (Option.some.inj hc).symm
    rw [hk] at hd
    simp only [detectSec] at hd
    rw [hd] at h1
    exact Bool.false_ne_true h1
  · rw [if_neg h1]
    by_cases h2 : detect_pontos (pyUpper (pyStrip l)) = true
    · rw [if_pos h2]
      refine ⟨fun hc => ?_, rfl⟩
      have hk : k = Sec.pontos := (Option.some.inj hc).symm
      rw [hk] at hd
      simp only [detectSec] at hd
      rw [hd] at h2
      exact Bool.false_ne_true h2
    · rw [if_neg h2]
      by_cases h3 : detect_nivel (pyUpper (pyStrip l)) = true
      · rw [if_pos h3]
        refine ⟨fun hc => ?_, rfl⟩
        have hk : k = Sec.nivel := (Option.some.inj hc).symm
        rw [hk] at hd
        simp only [detectSec] at hd
        rw [hd] at h3
        exact Bool.false_ne_true h3
      · rw [if_neg h3]
        cases s1 with
        | none => exact ⟨fun hc => Option.noConfusion hc, rfl⟩
        | some j =>
          have hj : j ≠ k := fun he => hst (by rw [he])
          refine ⟨fun hc => ?_, ?_⟩
          · have hfst := parse_inner_fst j s2 (pyStrip l) (pyUpper (pyStrip l))
            exact hj (Option.some.inj (hfst.symm.trans hc))
          · exact parse_inner_snd j k s2 (pyStrip l) (pyUpper (pyStrip l)) hj

theorem parse_fold_preserve (k : Sec) (lines : List String)
    (h : ∀ l ∈ lines, detectSec k (pyUpper (pyStrip l)) = false) :
    ∀ st : Option Sec × Sections, st.1 ≠ some k →
      (lines.foldl parse_step st).1 ≠ some k ∧
      getSec (lines.foldl parse_step st).2 k = getSec st.2 k := by
  induction lines with
  | nil => exact fun st hst => ⟨hst, rfl⟩
  | cons l ls ih =>
    intro st hst
    have hl := h l (by simp)
    have hstep := parse_step_preserve k st l hl hst
    have hrest := ih (fun x hx => h x (by simp [hx])) (parse_step st l) hstep.1
    exact ⟨hrest.1, hrest.2.trans hstep.2⟩

/-- Claim C3: for every input string, the response parser returns a
record with exactly the three section keys (by the shape of
`Sections`), never raises (it is a total function), and each section is
the empty string whenever its heading is never detected on any line of
the input; in particular, text with none of the three recognizable
headings yields three empty sections. -/
theorem parser_default_sections (analysis_text : String) :
    ((∀ l ∈ pySplitLinesNl analysis_text, detect_resumo (pyUpper (pyStrip l)) = false) →
       (parse_analysis_response analysis_text).resumo_executivo = "") ∧
    ((∀ l ∈ pySplitLinesNl analysis_text, detect_pontos (pyUpper (pyStrip l)) = false) →
       (parse_analysis_response analysis_text).pontos_chave = "") ∧
    ((∀ l ∈ pySplitLinesNl analysis_text, detect_nivel (pyUpper (pyStrip l)) = false) →
       (parse_analysis_response analysis_text).nivel_relevancia = "") := by
  refine ⟨fun h => ?_, fun h => ?_, fun h => ?_⟩
  · have hf := parse_fold_preserve Sec.resumo (pySplitLinesNl analysis_text)
      (by simpa [detectSec] using h) (none, emptySections) (by simp)
    have : ((pySplitLinesNl analysis_text).foldl parse_step
        (none, emptySections)).2.resumo_executivo = "" := hf.2
    simp only [parse_analysis_response, this]
    rfl
  · have hf := parse_fold_preserve Sec.pontos (pySplitLinesNl analysis_text)
      (by simpa [detectSec] using h) (none, emptySections) (by simp)
    have : ((pySplitLinesNl analysis_text).foldl parse_step
        (none, emptySections)).2.pontos_chave = "" := hf.2
    simp only [parse_analysis_response, this]
    rfl
  · have hf := parse_fold_preserve Sec.nivel (pySplitLinesNl analysis_text)
      (by simpa [detectSec] using h) (none, emptySections) (by simp)
    have : ((pySplitLinesNl analysis_text).foldl parse_step
        (none, emptySections)).2.nivel_relevancia = "" := hf.2
    simp only [parse_analysis_response, this]
    rfl

/-- Witness for C3 at the concrete heading-free input
`"hello\nworld"`. -/
theorem parser_default_sections_witness :
    (parse_analysis_response "hello\nworld").resumo_executivo = "" ∧
    (parse_analysis_response "hello\nworld").pontos_chave = "" ∧
    (parse_analysis_response "hello\nworld").nivel_relevancia = "" :=
  ⟨(parser_default_sections "hello\nworld").1 (by decide),
   (parser_default_sections "hello\nworld").2.1 (by decide),
   (parser_default_sections "hello\nworld").2.2 (by decide)⟩

/-- Claim C4 (amended): while a section cursor is active, a line whose
stripped form is non-empty and which is not detected as any section
marker is appended (with a trailing newline) to the active section's
accumulator — UNLESS the stripped line starts with `##` or `**`, in
which case the source drops it even though it contains no marker
phrase.  (The claim as frozen omits this `##`/`**` exclusion; the
counterexample shows a dropped line.) -/
theorem parser_append_rule (st : Option Sec × Sections) (k : Sec) (rawLine : String)
    (hst : st.1 = some k)
    (h1 : detect_resumo (pyUpper (pyStrip rawLine)) = false)
    (h2 : detect_pontos (pyUpper (pyStrip rawLine)) = false)
    (h3 : detect_nivel (pyUpper (pyStrip rawLine)) = false)
    (h4 : pyStrip rawLine ≠ "") :
    parse_step st rawLine =
      (some k,
        if pyStarts (pyStrip rawLine) "##" || pyStarts (pyStrip rawLine) "**" then st.2
        else appendSec st.2 k (pyStrip rawLine ++ "\n")) := by
  obtain ⟨s1, s2⟩ := st
  have hs1 : s1 = some k := hst
  subst hs1
  have hr : strHasSub (pyUpper (pyStrip rawLine)) "RESUMO EXECUTIVO" = false := by
    simp only [detect_resumo] at h1
    exact (Bool.or_eq_false_iff.mp h1).2
  have hp6 := Bool.or_eq_false_iff.mp (by simpa only [detect_pontos] using h2)
  have hp5 := Bool.or_eq_false_iff.mp hp6.1
  have hn6 := Bool.or_eq_false_iff.mp (by simpa only [detect_nivel] using h3)
  have hn5 := Bool.or_eq_false_iff.mp hn6.1
  have hm : (marker_list.any fun m => strHasSub (pyUpper (pyStrip rawLine)) m) = false := by
    simp [marker_list, hr, hp5.2, hp6.2, hn5.2, hn6.2]
  have hn1 : ¬detect_resumo (pyUpper (pyStrip rawLine)) = true := by simp [h1]
  have hn2 : ¬detect_pontos (pyUpper (pyStrip rawLine)) = true := by simp [h2]
  have hn3 : ¬detect_nivel (pyUpper (pyStrip rawLine)) = true := by simp [h3]
  simp only [parse_step]
  rw [if_neg hn1, if_neg hn2, if_neg hn3]
  by_cases hp : pyStarts (pyStrip rawLine) "##" = true
  · rw [if_pos (show (pyStarts (pyStrip rawLine) "##" ||
        pyStarts (pyStrip rawLine) "**") = true by simp [hp])]
    rw [if_neg (show ¬(pyStrip rawLine != "" && !pyStarts (pyStrip rawLine) "##" &&
        !pyStarts (pyStrip rawLine) "**") = true by simp [hp])]
  · by_cases hq : pyStarts (pyStrip rawLine) "**" = true
    · rw [if_pos (show (pyStarts (pyStrip rawLine) "##" ||
          pyStarts (pyStrip rawLine) "**") = true by simp [hq])]
      rw [if_neg (show ¬(pyStrip rawLine != "" && !pyStarts (pyStrip rawLine) "##" &&
          !pyStarts (pyStrip rawLine) "**") = true by simp [hq])]
    · rw [if_neg (show ¬(pyStarts (pyStrip rawLine) "##" ||
          pyStarts (pyStrip rawLine) "**") = true by simp [hp, hq])]
      rw [if_pos (show (pyStrip rawLine != "" && !pyStarts (pyStrip rawLine) "##" &&
          !pyStarts (pyStrip rawLine) "**") = true by
        simp [bne_iff_ne, h4, Bool.not_eq_true] at *
        simp [bne_iff_ne, h4, hp, hq])]
      rw [if_pos (show (!(marker_list.any fun m =>
          strHasSub (pyUpper (pyStrip rawLine)) m)) = true by simp [hm])]

/-- Witness for C4 at the appended line `"hello"` with the
executive-summary cursor active. -/
theorem parser_append_rule_witness :
    parse_step (some Sec.resumo, emptySections) "hello" =
      (some Sec.resumo,
        if pyStarts (pyStrip "hello") "##" || pyStarts (pyStrip "hello") "**" then
          emptySections
        else appendSec emptySections Sec.resumo (pyStrip "hello" ++ "\n")) :=
  parser_append_rule (some Sec.resumo, emptySections) Sec.resumo "hello" rfl
    (by decide) (by decide) (by decide) (by decide)

/-- Counterexample to C4 as frozen: with an active cursor, the
non-empty line `"## foo"` detects no section and contains no marker
phrase, yet the parser drops it instead of appending it. -/
theorem parser_append_rule_cex :
    pyStrip "## foo" ≠ "" ∧
    detect_resumo (pyUpper (pyStrip "## foo")) = false ∧
    detect_pontos (pyUpper (pyStrip "## foo")) = false ∧
    detect_nivel (pyUpper (pyStrip "## foo")) = false ∧
    (marker_list.any fun m => strHasSub (pyUpper (pyStrip "## foo")) m) = false ∧
    parse_step (some Sec.resumo, emptySections) "## foo" =
      (some Sec.resumo, emptySections) ∧
    appendSec emptySections Sec.resumo (pyStrip "## foo" ++ "\n") ≠ emptySections := by
  decide

theorem local_analysis_nivel (news_item : Article) :
    (local_analysis news_item).nivel_relevancia =
      relevance_string (keyword_count high_relevance_keywords (local_text_lower news_item))
        (keyword_count medium_relevance_keywords (local_text_lower news_item)) := rfl

theorem local_analysis_pontos (news_item : Article) :
    (local_analysis news_item).pontos_chave =
      pyJoinNl (pontos_chave_list (local_text_lower news_item)) := rfl

theorem local_analysis_resumo (news_item : Article) :
    (local_analysis news_item).resumo_executivo =
      resumo_executivo_local (news_item.title.getD "N/A")
        (keyword_count high_relevance_keywords (local_text_lower news_item))
        (keyword_count medium_relevance_keywords (local_text_lower news_item)) := rfl

/-- Claim C5: the local relevance level is exactly the priority rule
over the high-tier and medium-tier keyword counts of the lowercased
title+content text; in particular a count of exactly 2 high-tier
keywords yields an `"Alto"` level, exactly 1 yields `"Médio"`, and 0
high-tier with 0 medium-tier yields `"Baixo"`. -/
theorem local_relevance_classification (news_item : Article) :
    ((local_analysis news_item).nivel_relevancia =
      (if 2 ≤ keyword_count high_relevance_keywords (local_text_lower news_item) then
         "Alto - Contém múltiplas palavras-chave de alta relevância"
       else if 1 ≤ keyword_count high_relevance_keywords (local_text_lower news_item) ∨
           3 ≤ keyword_count medium_relevance_keywords (local_text_lower news_item) then
         "Médio - Relevância moderada para o setor de IA"
       else if 1 ≤ keyword_count medium_relevance_keywords (local_text_lower news_item) then
         "Médio - Relacionado à inteligência artificial"
       else "Baixo - Relevância limitada para IA")) ∧
    (keyword_count high_relevance_keywords (local_text_lower news_item) = 2 →
      pyStarts (local_analysis news_item).nivel_relevancia "Alto" = true) ∧
    (keyword_count high_relevance_keywords (local_text_lower news_item) = 1 →
      pyStarts (local_analysis news_item).nivel_relevancia "Médio" = true) ∧
    (keyword_count high_relevance_keywords (local_text_lower news_item) = 0 ∧
        keyword_count medium_relevance_keywords (local_text_lower news_item) = 0 →
      pyStarts (local_analysis news_item).nivel_relevancia "Baixo" = true) := by
  refine ⟨rfl, fun h => ?_, fun h => ?_, fun h => ?_⟩
  · rw [local_analysis_nivel, h]
    simp only [relevance_string]
    rw [if_pos (by omega)]
    decide
  · rw [local_analysis_nivel, h]
    simp only [relevance_string]
    rw [if_neg (by omega), if_pos (Or.inl (by omega))]
    decide
  · rw [local_analysis_nivel, h.1, h.2]
    simp only [relevance_string]
    rw [if_neg (by omega), if_neg (by omega), if_neg (by omega)]
    decide

/-- Witness for C5 at concrete articles realizing the three keyword
statistics of the claim. -/
theorem local_relevance_classification_witness :
    keyword_count high_relevance_keywords
      (local_text_lower { title := some "claude billion", content := some "" }) = 2 ∧
    pyStarts (local_analysis { title := some "claude billion", content := some "" }).nivel_relevancia
      "Alto" = true ∧
    keyword_count high_relevance_keywords
      (local_text_lower { title := some "claude", content := some "" }) = 1 ∧
    pyStarts (local_analysis { title := some "claude", content := some "" }).nivel_relevancia
      "Médio" = true ∧
    pyStarts (local_analysis art_hello_update).nivel_relevancia "Baixo" = true :=
  ⟨by decide,
   (local_relevance_classification { title := some "claude billion", content := some "" }).2.1
     (by decide),
   by decide,
   (local_relevance_classification { title := some "claude", content := some "" }).2.2.1
     (by decide),
   (local_relevance_classification art_hello_update).2.2.2 ⟨by decide, by decide⟩⟩

/-- Claim C10 (amended): the low-tier (maintenance) keyword count has
no effect on the local analysis; its relevance level, key points and
executive summary depend only on the (defaulted) title, the high-tier
and medium-tier counts and the presences of the fixed trigger
keywords.  (The claim as frozen omits the dependence of the executive
summary on the title; the counterexample exhibits it.) -/
theorem local_analysis_input_dependence (a b : Article)
    (ht : a.title.getD "N/A" = b.title.getD "N/A")
    (hh : keyword_count high_relevance_keywords (local_text_lower a) =
        keyword_count high_relevance_keywords (local_text_lower b))
    (hm : keyword_count medium_relevance_keywords (local_text_lower a) =
        keyword_count medium_relevance_keywords (local_text_lower b))
    (htr : ∀ kw ∈ trigger_keywords,
        strHasSub (local_text_lower a) kw = strHasSub (local_text_lower b) kw) :
    (local_analysis a).nivel_relevancia = (local_analysis b).nivel_relevancia ∧
    (local_analysis a).pontos_chave = (local_analysis b).pontos_chave ∧
    (local_analysis a).resumo_executivo = (local_analysis b).resumo_executivo := by
  have t1 := htr "openai" (by simp [trigger_keywords])
  have t2 := htr "chatgpt" (by simp [trigger_keywords])
  have t3 := htr "google" (by simp [trigger_keywords])
  have t4 := htr "gemini" (by simp [trigger_keywords])
  have t5 := htr "microsoft" (by simp [trigger_keywords])
  have t6 := htr "funding" (by simp [trigger_keywords])
  have t7 := htr "investment" (by simp [trigger_keywords])
  have t8 := htr "enterprise" (by simp [trigger_keywords])
  have t9 := htr "business" (by simp [trigger_keywords])
  have t10 := htr "developer" (by simp [trigger_keywords])
  have t11 := htr "api" (by simp [trigger_keywords])
  refine ⟨?_, ?_, ?_⟩
  · rw [local_analysis_nivel, local_analysis_nivel, hh, hm]
  · rw [local_analysis_pontos, local_analysis_pontos]
    have : pontos_chave_list (local_text_lower a) = pontos_chave_list (local_text_lower b) := by
      simp only [pontos_chave_list, key_point_triggers, List.filter_cons, List.filter_nil,
        t1, t2, t3, t4, t5, t6, t7, t8, t9, t10, t11]
    rw [this]
  · rw [local_analysis_resumo, local_analysis_resumo, ht, hh, hm]

/-- Witness for C10 at two articles agreeing on everything except the
low-tier count (1 versus 2). -/
theorem local_analysis_input_dependence_witness :
    keyword_count low_relevance_keywords (local_text_lower art_hello_update) ≠
      keyword_count low_relevance_keywords (local_text_lower art_hello_update_minor) ∧
    (local_analysis art_hello_update).nivel_relevancia =
      (local_analysis art_hello_update_minor).nivel_relevancia ∧
    (local_analysis art_hello_update).pontos_chave =
      (local_analysis art_hello_update_minor).pontos_chave ∧
    (local_analysis art_hello_update).resumo_executivo =
      (local_analysis art_hello_update_minor).resumo_executivo :=
  ⟨by decide,
   (local_analysis_input_dependence art_hello_update art_hello_update_minor rfl
     (by decide) (by decide) (by decide)).1,
   (local_analysis_input_dependence art_hello_update art_hello_update_minor rfl
     (by decide) (by decide) (by decide)).2.1,
   (local_analysis_input_dependence art_hello_update art_hello_update_minor rfl
     (by decide) (by decide) (by decide)).2.2⟩

/-- Counterexample to C10 as frozen: two inputs agreeing on the
high-tier and medium-tier counts and on every trigger-keyword presence
while differing in the low-tier count nevertheless produce different
executive summaries, because the summary also embeds the title. -/
theorem local_low_tier_cex :
    keyword_count high_relevance_keywords (local_text_lower art_hello_update) =
      keyword_count high_relevance_keywords (local_text_lower art_world_empty) ∧
    keyword_count medium_relevance_keywords (local_text_lower art_hello_update) =
      keyword_count medium_relevance_keywords (local_text_lower art_world_empty) ∧
    (∀ kw ∈ trigger_keywords,
        strHasSub (local_text_lower art_hello_update) kw =
          strHasSub (local_text_lower art_world_empty) kw) ∧
    keyword_count low_relevance_keywords (local_text_lower art_hello_update) ≠
      keyword_count low_relevance_keywords (local_text_lower art_world_empty) ∧
    (local_analysis art_hello_update).resumo_executivo ≠
      (local_analysis art_world_empty).resumo_executivo := by
  decide

/-- Claim C6 (amended): when the title and the summary EACH pass the
target-language heuristic (at least 2 function-word matches among
their own lowercase whitespace-split tokens, or fewer than 5 tokens),
the translation step returns the article unchanged and issues zero
generation calls.  (The claim as frozen applies the heuristic to the
COMBINED title+summary; the implementation tests the two fields
separately, and the counterexample separates the two readings.) -/
theorem translation_skip_per_field (available_providers : List Provider)
    (news_item : Article)
    (h1 : is_portuguese (news_item.title.getD "") = true)
    (h2 : is_portuguese (news_item.summary.getD (news_item.content.getD "")) = true) :
    translate_news_item_simple_t available_providers news_item = (news_item, 0) := by
  simp only [translate_news_item_simple_t, h1, h2]
  rfl

/-- Witness for C6 at a Portuguese title/summary pair and a configured
provider. -/
theorem translation_skip_per_field_witness :
    translate_news_item_simple_t [provOk]
      { title := some "Análise de mercado para investidores", summary := some "a de da" } =
      ({ title := some "Análise de mercado para investidores", summary := some "a de da" }, 0) :=
  translation_skip_per_field [provOk]
    { title := some "Análise de mercado para investidores", summary := some "a de da" }
    (by decide) (by decide)

/-- Counterexample to C6 as frozen: `art_c6`'s combined title+summary
has ≥2 function-word matches (so the claim's antecedent holds), yet
with a configured provider the translation step issues one generation
call, not zero, because the summary alone fails the heuristic. -/
theorem translation_skip_combined_cex :
    combined_portuguese_spec art_c6 = true ∧
    (translate_news_item_simple_t [provOk] art_c6).2 = 1 ∧
    (translate_news_item_simple_t [provOk] art_c6).2 ≠ 0 := by
  refine ⟨by decide, by decide, by decide⟩

theorem translation_fold_fst (lines : List String) :
    ∀ acc : String × String,
      (∀ l ∈ lines, pyStarts l "TÍTULO_TRADUZIDO:" = false) →
      (lines.foldl translation_scan_step acc).1 = acc.1 := by
  induction lines with
  | nil => exact fun acc _ => rfl
  | cons l ls ih =>
    intro acc h
    have hl := h l (by simp)
    have hrest := ih (translation_scan_step acc l) (fun x hx => h x (by simp [hx]))
    rw [List.foldl_cons, hrest]
    simp only [translation_scan_step, hl, Bool.false_eq_true, if_false]
    split
    · rfl
    · rfl

theorem translation_fold_snd (lines : List String) :
    ∀ acc : String × String,
      (∀ l ∈ lines, pyStarts l "RESUMO_TRADUZIDO:" = false) →
      (lines.foldl translation_scan_step acc).2 = acc.2 := by
  induction lines with
  | nil => exact fun acc _ => rfl
  | cons l ls ih =>
    intro acc h
    have hl := h l (by simp)
    have hrest := ih (translation_scan_step acc l) (fun x hx => h x (by simp [hx]))
    rw [List.foldl_cons, hrest]
    simp only [translation_scan_step]
    split
    · rfl
    · rw [if_neg (by simp [hl])]

/-- Claim C9: the translation output is parsed by scanning lines for
the two label prefixes, every line matching neither prefix is ignored,
a missing label keeps the corresponding original field value, and a
raising generation call leaves the article unchanged without
propagating the failure. -/
theorem translation_parse_contract :
    (∀ (acc : String × String) (line : String),
        pyStarts line "TÍTULO_TRADUZIDO:" = false →
        pyStarts line "RESUMO_TRADUZIDO:" = false →
        translation_scan_step acc line = acc) ∧
    (∀ title summary text : String,
        (∀ l ∈ pySplitLinesNl text, pyStarts l "TÍTULO_TRADUZIDO:" = false) →
        (translation_parse title summary text).1 = title) ∧
    (∀ title summary text : String,
        (∀ l ∈ pySplitLinesNl text, pyStarts l "RESUMO_TRADUZIDO:" = false) →
        (translation_parse title summary text).2 = summary) ∧
    (∀ (p : Provider) (rest : List Provider) (news_item : Article),
        (∀ sys usr, p.chat sys usr = Except.error ()) →
        (translate_news_item_simple_t (p :: rest) news_item).1 = news_item) := by
  refine ⟨?_, ?_, ?_, ?_⟩
  · intro acc line hT hR
    simp [translation_scan_step, hT, hR]
  · intro title summary text h
    exact translation_fold_fst (pySplitLinesNl text) (title, summary) h
  · intro title summary text h
    exact translation_fold_snd (pySplitLinesNl text) (title, summary) h
  · intro p rest news_item hchat
    simp only [translate_news_item_simple_t]
    split
    · rfl
    · cases hp : p.ptype
      · simp [hchat]
      · simp

/-- Witness for C9 at concrete label-free text and an always-raising
provider. -/
theorem translation_parse_contract_witness :
    translation_scan_step ("t0", "s0") "linha qualquer" = ("t0", "s0") ∧
    (translation_parse "T0" "S0" "sem rotulos\naqui").1 = "T0" ∧
    (translation_parse "T0" "S0" "sem rotulos\naqui").2 = "S0" ∧
    (translate_news_item_simple_t [provA] art_en).1 = art_en :=
  ⟨translation_parse_contract.1 ("t0", "s0") "linha qualquer" (by decide) (by decide),
   translation_parse_contract.2.1 "T0" "S0" "sem rotulos\naqui" (by decide),
   translation_parse_contract.2.2.1 "T0" "S0" "sem rotulos\naqui" (by decide),
   translation_parse_contract.2.2.2 provA [] art_en (fun _ _ => rfl)⟩

theorem listStarts_nil (l : List Char) : listStarts l [] = true := by
  cases l <;> rfl

theorem listStarts_self_append (p b : List Char) : listStarts (p ++ b) p = true := by
  induction p with
  | nil => exact listStarts_nil b
  | cons c cs ih => simp [List.cons_append, listStarts, ih]

theorem listHasSub_self_append (p b : List Char) : listHasSub p (p ++ b) = true := by
  cases p with
  | nil =>
    cases b with
    | nil => rfl
    | cons x xs => simp [listHasSub, listStarts_nil]
  | cons c cs => simp [listHasSub, listStarts, listStarts_self_append]

theorem listHasSub_append_left (p a rest : List Char) (h : listHasSub p rest = true) :
    listHasSub p (a ++ rest) = true := by
  induction a with
  | nil => simpa using h
  | cons x xs ih => simp [listHasSub, ih]

theorem strHasSub_embed (a t b : String) : strHasSub (a ++ t ++ b) t = true := by
  have hd : (a ++ t ++ b).data = a.data ++ (t.data ++ b.data) := by
    simp [String.data_append]
  unfold strHasSub
  rw [hd]
  exact listHasSub_append_left t.data a.data (t.data ++ b.data)
    (listHasSub_self_append t.data b.data)

/-- Claim C8 (amended): the analysis prompt is a pure total function of
the article; the rendered text embeds the title (placeholder `"N/A"`
when the title key is absent) and the content — falling back to the
summary, and then to `"N/A"`, only when the respective KEYS are absent,
not when the content is the empty string — and the template requests
the three headed sections `## RESUMO EXECUTIVO`, `## PONTOS-CHAVE`,
`## NÍVEL DE RELEVÂNCIA` in that order.  (The claim as frozen says the
summary is used when the content is "empty"; the counterexample shows
an empty-but-present content being embedded as-is.) -/
theorem prompt_template_structure (news_item : Article) :
    (create_analysis_prompt news_item =
      prompt_part1 ++ news_item.title.getD "N/A" ++ prompt_part2 ++
        news_item.content.getD (news_item.summary.getD "N/A") ++
        prompt_tail_a ++ "## RESUMO EXECUTIVO" ++ prompt_tail_b ++
        "## PONTOS-CHAVE" ++ prompt_tail_c ++ "## NÍVEL DE RELEVÂNCIA" ++ prompt_tail_d) ∧
    strHasSub (create_analysis_prompt news_item) (news_item.title.getD "N/A") = true ∧
    strHasSub (create_analysis_prompt news_item)
      (news_item.content.getD (news_item.summary.getD "N/A")) = true ∧
    strHasSub (create_analysis_prompt news_item) "## RESUMO EXECUTIVO" = true ∧
    strHasSub (create_analysis_prompt news_item) "## PONTOS-CHAVE" = true ∧
    strHasSub (create_analysis_prompt news_item) "## NÍVEL DE RELEVÂNCIA" = true := by
  refine ⟨rfl, ?_, ?_, ?_, ?_, ?_⟩
  · have h := strHasSub_embed prompt_part1 (news_item.title.getD "N/A")
      (prompt_part2 ++ news_item.content.getD (news_item.summary.getD "N/A") ++
        prompt_tail_a ++ "## RESUMO EXECUTIVO" ++ prompt_tail_b ++
        "## PONTOS-CHAVE" ++ prompt_tail_c ++ "## NÍVEL DE RELEVÂNCIA" ++ prompt_tail_d)
    calc strHasSub (create_analysis_prompt news_item) (news_item.title.getD "N/A")
        = strHasSub (prompt_part1 ++ news_item.title.getD "N/A" ++
            (prompt_part2 ++ news_item.content.getD (news_item.summary.getD "N/A") ++
              prompt_tail_a ++ "## RESUMO EXECUTIVO" ++ prompt_tail_b ++
              "## PONTOS-CHAVE" ++ prompt_tail_c ++ "## NÍVEL DE RELEVÂNCIA" ++ prompt_tail_d))
            (news_item.title.getD "N/A") := by
          simp only [create_analysis_prompt, String.append_assoc]
      _ = true := h
  · have h := strHasSub_embed
      (prompt_part1 ++ news_item.title.getD "N/A" ++ prompt_part2)
      (news_item.content.getD (news_item.summary.getD "N/A"))
      (prompt_tail_a ++ "## RESUMO EXECUTIVO" ++ prompt_tail_b ++
        "## PONTOS-CHAVE" ++ prompt_tail_c ++ "## NÍVEL DE RELEVÂNCIA" ++ prompt_tail_d)
    calc strHasSub (create_analysis_prompt news_item)
          (news_item.content.getD (news_item.summary.getD "N/A"))
        = strHasSub (prompt_part1 ++ news_item.title.getD "N/A" ++ prompt_part2 ++
            news_item.content.getD (news_item.summary.getD "N/A") ++
            (prompt_tail_a ++ "## RESUMO EXECUTIVO" ++ prompt_tail_b ++
              "## PONTOS-CHAVE" ++ prompt_tail_c ++ "## NÍVEL DE RELEVÂNCIA" ++ prompt_tail_d))
            (news_item.content.getD (news_item.summary.getD "N/A")) := by
          simp only [create_analysis_prompt, String.append_assoc]
      _ = true := by
          rw [← String.append_assoc, ← String.append_assoc, ← String.append_assoc] at h ⊢
          exact h
  · have h := strHasSub_embed
      (prompt_part1 ++ news_item.title.getD "N/A" ++ prompt_part2 ++
        news_item.content.getD (news_item.summary.getD "N/A") ++ prompt_tail_a)
      "## RESUMO EXECUTIVO"
      (prompt_tail_b ++ "## PONTOS-CHAVE" ++ prompt_tail_c ++
        "## NÍVEL DE RELEVÂNCIA" ++ prompt_tail_d)
    calc strHasSub (create_analysis_prompt news_item) "## RESUMO EXECUTIVO"
        = strHasSub (prompt_part1 ++ news_item.title.getD "N/A" ++ prompt_part2 ++
            news_item.content.getD (news_item.summary.getD "N/A") ++ prompt_tail_a ++
            "## RESUMO EXECUTIVO" ++
            (prompt_tail_b ++ "## PONTOS-CHAVE" ++ prompt_tail_c ++
              "## NÍVEL DE RELEVÂNCIA" ++ prompt_tail_d)) "## RESUMO EXECUTIVO" := by
          simp only [create_analysis_prompt, String.append_assoc]
      _ = true := by
          simp only [String.append_assoc] at h ⊢
          exact h
  · have h := strHasSub_embed
      (prompt_part1 ++ news_item.title.getD "N/A" ++ prompt_part2 ++
        news_item.content.getD (news_item.summary.getD "N/A") ++ prompt_tail_a ++
        "## RESUMO EXECUTIVO" ++ prompt_tail_b)
      "## PONTOS-CHAVE"
      (prompt_tail_c ++ "## NÍVEL DE RELEVÂNCIA" ++ prompt_tail_d)
    calc strHasSub (create_analysis_prompt news_item) "## PONTOS-CHAVE"
        = strHasSub (prompt_part1 ++ news_item.title.getD "N/A" ++ prompt_part2 ++
            news_item.content.getD (news_item.summary.getD "N/A") ++ prompt_tail_a ++
            "## RESUMO EXECUTIVO" ++ prompt_tail_b ++ "## PONTOS-CHAVE" ++
            (prompt_tail_c ++ "## NÍVEL DE RELEVÂNCIA" ++ prompt_tail_d))
            "## PONTOS-CHAVE" := by
          simp only [create_analysis_prompt, String.append_assoc]
      _ = true := by
          simp only [String.append_assoc] at h ⊢
          exact h
  · have h := strHasSub_embed
      (prompt_part1 ++ news_item.title.getD "N/A" ++ prompt_part2 ++
        news_item.content.getD (news_item.summary.getD "N/A") ++ prompt_tail_a ++
        "## RESUMO EXECUTIVO" ++ prompt_tail_b ++ "## PONTOS-CHAVE" ++ prompt_tail_c)
      "## NÍVEL DE RELEVÂNCIA" prompt_tail_d
    calc strHasSub (create_analysis_prompt news_item) "## NÍVEL DE RELEVÂNCIA"
        = strHasSub (prompt_part1 ++ news_item.title.getD "N/A" ++ prompt_part2 ++
            news_item.content.getD (news_item.summary.getD "N/A") ++ prompt_tail_a ++
            "## RESUMO EXECUTIVO" ++ prompt_tail_b ++ "## PONTOS-CHAVE" ++ prompt_tail_c ++
            "## NÍVEL DE RELEVÂNCIA" ++ prompt_tail_d) "## NÍVEL DE RELEVÂNCIA" := rfl
      _ = true := by
          simp only [String.append_assoc] at h ⊢
          exact h

set_option maxRecDepth 40000 in
/-- Counterexample to C8 as frozen: `art_c8` has an empty (but present)
content and the summary `"zzqq"`; the rendered prompt does not embed
the summary, contradicting "its summary when the content is empty". -/
theorem prompt_empty_content_cex :
    art_c8.content = some "" ∧
    art_c8.summary = some "zzqq" ∧
    strHasSub (create_analysis_prompt art_c8) "zzqq" = false := by
  refine ⟨rfl, rfl, ?_⟩
  decide

theorem analyze_news_go_all_fail (ctx : List Provider) (news_item : Article) :
    ∀ l : List Provider,
      (∀ p ∈ l, ok_some (run_provider ctx p news_item) = false) →
      (analyze_news_go ctx news_item l).1 = local_analysis news_item := by
  intro l
  induction l with
  | nil => intro _; rfl
  | cons p rest ih =>
    intro h
    have hp := h p (by simp)
    simp only [analyze_news_go]
    cases hr : run_provider ctx p news_item with
    | error e => exact ih (fun x hx => h x (by simp [hx]))
    | ok o =>
      cases o with
      | none => exact ih (fun x hx => h x (by simp [hx]))
      | some res => rw [hr] at hp; simp [ok_some] at hp

/-- Claim C1: `analyze_news` is total (modelled by its non-optional
result type) and always yields a record carrying the three analysis
fields; whenever the usable-provider list is empty or every provider
attempt fails (raises or returns a falsy result), the result is
exactly the LocalAnalyzer output and its analysis-method marker is
`"local"`. -/
theorem analyze_news_exhaustion (available_providers : List Provider)
    (analysis_enabled : Bool) (news_item : Article)
    (h : ∀ p ∈ available_providers,
        ok_some (run_provider available_providers p news_item) = false) :
    analyze_news available_providers analysis_enabled news_item = local_analysis news_item ∧
    (analyze_news available_providers analysis_enabled news_item).metodo_analise =
      some "local" := by
  have hmain : analyze_news available_providers analysis_enabled news_item =
      local_analysis news_item := by
    cases analysis_enabled with
    | false => rfl
    | true =>
      exact analyze_news_go_all_fail available_providers news_item available_providers h
  exact ⟨hmain, by rw [hmain]; rfl⟩

/-- Witness for C1 at the empty provider list. -/
theorem analyze_news_exhaustion_witness :
    analyze_news [] true art_pt = local_analysis art_pt ∧
    (analyze_news [] true art_pt).metodo_analise = some "local" :=
  analyze_news_exhaustion [] true art_pt (by simp)

theorem analyze_openai_marker (ctx : List Provider) (p : Provider) (news_item : Article)
    (res : AnalysisResult)
    (h : analyze_with_openai_compatible ctx p news_item = Except.ok (some res)) :
    res.provedor_usado = some p.name := by
  simp only [analyze_with_openai_compatible] at h
  split at h
  · exact Except.noConfusion h
  · have h2 := Option.some.inj (Except.ok.inj h)
    rw [← h2]

/-- Claim C2 (amended): in a usable-provider chain `[A, B, C, ...]`
where invoking `A` and `B` fails (raises or returns a falsy result)
and invoking `C` succeeds, `analyze_news` invokes `A`, `B`, `C` each
exactly once in order and returns immediately after `C` (no later
provider is invoked); when `C` is an OpenAI-compatible provider the
returned record's provider marker equals `C`'s name.  (The claim as
frozen asserts the marker for every succeeding provider; the Hugging
Face path attaches no marker, see the counterexample.) -/
theorem fallback_ordering (A B C : Provider) (rest : List Provider) (news_item : Article)
    (hC : C.ptype = PType.openai_compatible)
    (hA : ok_some (run_provider (A :: B :: C :: rest) A news_item) = false)
    (hB : ok_some (run_provider (A :: B :: C :: rest) B news_item) = false)
    (hCs : ok_some (run_provider (A :: B :: C :: rest) C news_item) = true) :
    (analyze_news_t (A :: B :: C :: rest) true news_item).2 = [A.name, B.name, C.name] ∧
    (analyze_news_t (A :: B :: C :: rest) true news_item).1.provedor_usado =
      some C.name := by
  have hCex : ∃ res, run_provider (A :: B :: C :: rest) C news_item =
      Except.ok (some res) := by
    cases hr : run_provider (A :: B :: C :: rest) C news_item with
    | error e => rw [hr] at hCs; simp [ok_some] at hCs
    | ok o =>
      cases o with
      | none => rw [hr] at hCs; simp [ok_some] at hCs
      | some res => exact ⟨res, rfl⟩
  obtain ⟨res, hres⟩ := hCex
  have goA : analyze_news_go (A :: B :: C :: rest) news_item (A :: B :: C :: rest) =
      ((analyze_news_go (A :: B :: C :: rest) news_item (B :: C :: rest)).1,
        A.name :: (analyze_news_go (A :: B :: C :: rest) news_item (B :: C :: rest)).2) := by
    simp only [analyze_news_go]
    cases hr : run_provider (A :: B :: C :: rest) A news_item with
    | error e => rfl
    | ok o =>
      cases o with
      | none => rfl
      | some r => rw [hr] at hA; simp [ok_some] at hA
  have goB : analyze_news_go (A :: B :: C :: rest) news_item (B :: C :: rest) =
      ((analyze_news_go (A :: B :: C :: rest) news_item (C :: rest)).1,
        B.name :: (analyze_news_go (A :: B :: C :: rest) news_item (C :: rest)).2) := by
    simp only [analyze_news_go]
    cases hr : run_provider (A :: B :: C :: rest) B news_item with
    | error e => rfl
    | ok o =>
      cases o with
      | none => rfl
      | some r => rw [hr] at hB; simp [ok_some] at hB
  have goC : analyze_news_go (A :: B :: C :: rest) news_item (C :: rest) =
      (res, [C.name]) := by
    simp only [analyze_news_go]
    rw [hres]
  have hrw : analyze_news_t (A :: B :: C :: rest) true news_item =
      (res, [A.name, B.name, C.name]) := by
    show analyze_news_go (A :: B :: C :: rest) news_item (A :: B :: C :: rest) = _
    rw [goA, goB, goC]
  refine ⟨by rw [hrw], ?_⟩
  rw [hrw]
  have hrun : run_provider (A :: B :: C :: rest) C news_item =
      analyze_with_openai_compatible (A :: B :: C :: rest) C news_item := by
    simp only [run_provider, hC]
  exact analyze_openai_marker (A :: B :: C :: rest) C news_item res (hrun ▸ hres)

/-- Witness for C2 at the concrete chain `[provA, provB, provCok]`. -/
theorem fallback_ordering_witness :
    ok_some (run_provider psABC provA art_pt) = false ∧
    ok_some (run_provider psABC provB art_pt) = false ∧
    ok_some (run_provider psABC provCok art_pt) = true ∧
    (analyze_news_t psABC true art_pt).2 = ["A", "B", "C"] ∧
    (analyze_news_t psABC true art_pt).1.provedor_usado = some "C" := by
  refine ⟨rfl, rfl, rfl, ?_, ?_⟩
  · exact (fallback_ordering provA provB provCok [] art_pt rfl rfl rfl rfl).1
  · exact (fallback_ordering provA provB provCok [] art_pt rfl rfl rfl rfl).2

/-- Counterexample to C2 as frozen: with the succeeding provider being
the Hugging Face backend, the returned record carries no provider
marker at all, so the marker does not equal the succeeding provider's
name. -/
theorem fallback_marker_cex :
    ok_some (run_provider psABHF provA art_pt) = false ∧
    ok_some (run_provider psABHF provB art_pt) = false ∧
    ok_some (run_provider psABHF provHFok art_pt) = true ∧
    provHFok.name = "huggingface" ∧
    (analyze_news_t psABHF true art_pt).1.provedor_usado = none ∧
    (analyze_news_t psABHF true art_pt).1.provedor_usado ≠ some provHFok.name := by
  refine ⟨rfl, rfl, rfl, rfl, rfl, by decide⟩

theorem ollama_notin_setup_step (openai_lib : Bool) (probe : Except Unit HealthResp)
    (acc : List String) (e : RegEntry) (hname : e.name ≠ "ollama")
    (hacc : "ollama" ∉ acc) : "ollama" ∉ setup_step openai_lib probe acc e := by
  unfold setup_step
  rw [if_neg (show ¬(e.name == "ollama") = true by simp [hname])]
  split
  · exact hacc
  · split
    · split
      · simp only [List.mem_append, List.mem_singleton]
        rintro (h | h)
        · exact hacc h
        · exact hname h.symm
      · split
        · simp only [List.mem_append, List.mem_singleton]
          rintro (h | h)
          · exact hacc h
          · exact hname h.symm
        · exact hacc
    · exact hacc

theorem ollama_notin_setup_fold (openai_lib : Bool) (probe : Except Unit HealthResp) :
    ∀ (l : List RegEntry) (acc : List String),
      (∀ e ∈ l, e.name ≠ "ollama") → "ollama" ∉ acc →
      "ollama" ∉ l.foldl (setup_step openai_lib probe) acc := by
  intro l
  induction l with
  | nil => intro acc _ hacc; exact hacc
  | cons e es ih =>
    intro acc h hacc
    rw [List.foldl_cons]
    exact ih (setup_step openai_lib probe acc e) (fun x hx => h x (by simp [hx]))
      (ollama_notin_setup_step openai_lib probe acc e (h e (by simp)) hacc)

/-- Claim C7: the Ollama health check is true iff the probe succeeded
at the transport level with HTTP 200 AND reported at least one
installed model — any raise, timeout, non-200 status or empty model
list yields false (and the check is total) — and consequently a probe
answering 200 with zero models leaves the local backend out of the
usable-provider list. -/
theorem health_check_gating (probe : Except Unit HealthResp) (r : HealthResp)
    (openai_lib : Bool) (keys : String → Option String)
    (h200 : r.status = 200) (hmodels : r.models = []) :
    (check_ollama_availability probe = true ↔
      ∃ hr, probe = Except.ok hr ∧ hr.status = 200 ∧ hr.models ≠ []) ∧
    "ollama" ∉ setup_providers openai_lib (Except.ok r) keys := by
  constructor
  · constructor
    · intro h
      cases probe with
      | error e => simp [check_ollama_availability] at h
      | ok hr =>
        simp only [check_ollama_availability] at h
        split at h
        · next hs => exact ⟨hr, rfl, by simpa using hs, by simpa using h⟩
        · exact absurd h (by simp)
    · rintro ⟨hr, hpe, hs, hm⟩
      subst hpe
      simp [check_ollama_availability, hs, hm]
  · have hcheck : check_ollama_availability (Except.ok r) = false := by
      simp [check_ollama_availability, h200, hmodels]
    have hsort : sortByPriority (provider_registry keys) = provider_registry keys := rfl
    unfold setup_providers
    rw [hsort]
    simp only [provider_registry]
    rw [List.foldl_cons]
    have hstep0 : setup_step openai_lib (Except.ok r) []
        (RegEntry.mk "ollama" (some "local") 1) = [] := by
      simp [setup_step, hcheck]
    rw [hstep0]
    refine ollama_notin_setup_fold openai_lib (Except.ok r) _ [] ?_ (by simp)
    intro e he
    fin_cases he <;> simp

/-- Witness for C7: a 200-with-no-models probe gates Ollama out, and a
200-with-a-model probe passes the health check. -/
theorem health_check_gating_witness :
    "ollama" ∉ setup_providers true (Except.ok (HealthResp.mk 200 []))
      (fun _ => some "k") ∧
    check_ollama_availability (Except.ok (HealthResp.mk 200 ["llama3"])) = true :=
  ⟨(health_check_gating (Except.ok (HealthResp.mk 200 [])) (HealthResp.mk 200 [])
      true (fun _ => some "k") rfl rfl).2,
   (health_check_gating (Except.ok (HealthResp.mk 200 ["llama3"])) (HealthResp.mk 200 [])
      true (fun _ => some "k") rfl rfl).1.mpr
     ⟨HealthResp.mk 200 ["llama3"], rfl, rfl, by simp⟩⟩
